import Mathlib

/-!
# FreeType services (`include/freetype/internal/ftserv.h`)

A shallow embedding of the service lookup macros `FT_FACE_FIND_SERVICE` and
`FT_FACE_LOOKUP_SERVICE`, of the services cache `FT_ServiceCacheRec`, and of the
service descriptor list scanned by `ft_service_list_lookup`.

Pointers are addresses (natural numbers); `NULL` is address 0 and the magic
number `FT_SERVICE_UNAVAILABLE` is `(FT_Pointer)-2` on a 64-bit target.  A C
statement macro that assigns to `ptr` and may update the face becomes a function
from the state before to the state after together with the value left in `ptr`.
The casts `(ptrtype)` and `(FT_Pointer)` convert between pointer types and keep
the address, so they do not appear.
-/

namespace FTServ

/-! ## Data model -/

/-- Type `FT_Pointer` (a `void*`): the address held by the pointer. -/
abbrev FT_Pointer := Nat

/-- The null pointer. -/
def NULL : FT_Pointer := 0

/-- Magic number used within the services cache:
`#define FT_SERVICE_UNAVAILABLE  ((FT_Pointer)-2)`, the integer -2 converted to a
64-bit pointer. -/
def FT_SERVICE_UNAVAILABLE : FT_Pointer := Int.toNat ((-2 : Int) % 2 ^ 64)

/-- One invocation `get_interface( module, id )`: the module handle that was
passed and the service id that was asked for. -/
structure Call where
  module : Nat
  id : String
deriving DecidableEq

/-- Module class (`module->clazz`).  Only the member the macros use is kept:
`get_interface` is a function pointer that may be NULL (`none`).  It is C code of
the module, so its answer may depend on the module's hidden state; that state is
represented by the history of the calls made so far (first argument).  The
other two arguments are those of the C call: the module handle and the id. -/
structure FT_Module_Class where
  get_interface : Option (List Call → Nat → String → FT_Pointer)

/-- Module object (`FT_ModuleRec`): its address and its class. -/
structure FT_ModuleRec where
  handle : Nat
  clazz : FT_Module_Class

/-- Services cache, the type of `face->internal->services`. -/
structure FT_ServiceCacheRec where
  postscript_name : FT_Pointer
  multi_masters : FT_Pointer
  glyph_dict : FT_Pointer
deriving DecidableEq

/-- The macro parameter `field`: the name of a member of `FT_ServiceCacheRec`. -/
inductive CacheField where
  | postscript_name
  | multi_masters
  | glyph_dict
deriving DecidableEq

/-- Read `services.field`. -/
def FT_ServiceCacheRec.get (c : FT_ServiceCacheRec) : CacheField → FT_Pointer
  | .postscript_name => c.postscript_name
  | .multi_masters => c.multi_masters
  | .glyph_dict => c.glyph_dict

/-- Assignment `services.field = v`. -/
def FT_ServiceCacheRec.set (c : FT_ServiceCacheRec) (field : CacheField) (v : FT_Pointer) :
    FT_ServiceCacheRec :=
  match field with
  | .postscript_name => { c with postscript_name := v }
  | .multi_masters => { c with multi_masters := v }
  | .glyph_dict => { c with glyph_dict := v }

/-- Private part of a face (`face->internal`); only the services cache is kept. -/
structure FT_Face_InternalRec where
  services : FT_ServiceCacheRec

/-- Face object: `FT_MODULE( FT_FACE(face)->driver )` and `internal`. -/
structure FT_FaceRec where
  driver : FT_ModuleRec
  internal : FT_Face_InternalRec

/-- Program state seen by the macros: the face, and the log of every call made
to a module's `get_interface` so far (oldest first). -/
structure World where
  face : FT_FaceRec
  calls : List Call

/-- Value of the cache slot `field` of the face. -/
def World.slot (w : World) (field : CacheField) : FT_Pointer :=
  w.face.internal.services.get field

/-- State after `FT_FACE(face)->internal->services.field = v`. -/
def World.setSlot (w : World) (field : CacheField) (v : FT_Pointer) : World :=
  { w with face := { w.face with internal := { services := w.face.internal.services.set field v } } }

/-! ## The lookup macros -/

/-- Macro `FT_FACE_FIND_SERVICE( ptrtype, ptr, face, id )`:
```
FT_Module  module = FT_MODULE( FT_FACE(face)->driver );
(ptr) = NULL;
if ( module->clazz->get_interface )
  (ptr) = (ptrtype)module->clazz->get_interface( module, id );
```
Returns the state after the statement and the value of `ptr`. -/
def FT_FACE_FIND_SERVICE (w : World) (id : String) : World × FT_Pointer :=
  let module := w.face.driver
  let ptr := NULL
  match module.clazz.get_interface with
  | some get_interface =>
      ({ w with calls := w.calls ++ [⟨module.handle, id⟩] },
        get_interface w.calls module.handle id)
  | none => (w, ptr)

/-- Macro `FT_FACE_LOOKUP_SERVICE( face, ptrtype, ptr, field, id )`:
```
(ptr) = (ptrtype)FT_FACE(face)->internal->services.field ;
if ( (ptr) == FT_SERVICE_UNAVAILABLE )
  (ptr) = NULL;
else if ( (ptr) == NULL )
{
  FT_FACE_FIND_SERVICE( ptrtype, ptr, face, id );
  FT_FACE(face)->internal->services.field =
    (FT_Pointer)( (ptr) != NULL ? (ptr) : FT_SERVICE_UNAVAILABLE );
}
```
Returns the state after the statement and the value of `ptr`. -/
def FT_FACE_LOOKUP_SERVICE (w : World) (field : CacheField) (id : String) :
    World × FT_Pointer :=
  let ptr := w.face.internal.services.get field
  if ptr = FT_SERVICE_UNAVAILABLE then
    (w, NULL)
  else if ptr = NULL then
    let r := FT_FACE_FIND_SERVICE w id
    (r.1.setSlot field (if r.2 ≠ NULL then r.2 else FT_SERVICE_UNAVAILABLE), r.2)
  else
    (w, ptr)

/-! ## Sequences of operations on a face -/

/-- One use of a macro on the face. -/
inductive Op where
  | lookup (field : CacheField) (id : String)
  | find (id : String)
deriving DecidableEq

/-- Execute one operation. -/
def Op.run (w : World) : Op → World × FT_Pointer
  | .lookup field id => FT_FACE_LOOKUP_SERVICE w field id
  | .find id => FT_FACE_FIND_SERVICE w id

/-- Record of one executed operation: the state before, the operation, the
value delivered in `ptr`, and the state after. -/
structure Step where
  before : World
  op : Op
  ptr : FT_Pointer
  after : World

/-- Execute operations in sequence, recording every step. -/
def steps : World → List Op → List Step
  | _, [] => []
  | w, op :: ops => ⟨w, op, (op.run w).2, (op.run w).1⟩ :: steps (op.run w).1 ops

/-- Execute operations in sequence; the final state. -/
def runOps : World → List Op → World
  | w, [] => w
  | w, op :: ops => runOps (op.run w).1 ops

/-- Whether the step changed the value of the cache slot `field`. -/
def Step.changes (field : CacheField) (st : Step) : Bool :=
  decide (st.after.slot field ≠ st.before.slot field)

/-- Number of `get_interface` calls made while going from state `w` to state `w1`. -/
def callsMade (w w1 : World) : Nat :=
  w1.calls.length - w.calls.length

/-- Modelled from the spec: the rebinding hook of the consumer binding (section 6, item c),
whose code is not in `ftserv.h`.  The face is bound to the module `M1` and every slot of
its services cache is reset to NULL (Uninitialized).  The call log is history and is kept. -/
def rebind (w : World) (M1 : FT_ModuleRec) : World :=
  { w with face := { driver := M1, internal := { services := ⟨NULL, NULL, NULL⟩ } } }

/-- Agreement of a cache slot holding `s` with the answer `a` of the uncached lookup:
the slot is still NULL, or it holds the magic number and the answer is NULL, or it holds
the answer itself, which is neither NULL nor the magic number. -/
def SlotAgrees (a s : FT_Pointer) : Prop :=
  s = NULL ∨ (s = FT_SERVICE_UNAVAILABLE ∧ a = NULL) ∨
    (s = a ∧ s ≠ NULL ∧ s ≠ FT_SERVICE_UNAVAILABLE)

/-! ## Service descriptors -/

/-- Service descriptor `FT_ServiceDescRec`: `serv_id` is a C string that may be NULL
(`none`), `serv_data` is the service pointer. -/
structure FT_ServiceDescRec where
  serv_id : Option String
  serv_data : FT_Pointer
deriving DecidableEq

/-- The entry `{ NULL, NULL }` that must end a descriptor array. -/
def terminator : FT_ServiceDescRec := ⟨none, NULL⟩

/-- The descriptor array of a well-formed table: the descriptors `(id, data)` in order,
followed by the terminator. -/
def serviceTable (ds : List (String × FT_Pointer)) : List FT_ServiceDescRec :=
  ds.map (fun d => ⟨some d.1, d.2⟩) ++ [terminator]

/-- Modelled from the spec: the body of `ft_service_list_lookup`, of which `ftserv.h` has
only the declaration.  Section 4.1: scan the descriptors in sequence order; compare each id
to the requested id by exact string equality; on the first match return its data; on
reaching the sentinel without a match return absent (NULL).  The array is given as the
list of its entries; running off its end without meeting the sentinel is the malformed
table of section 7, a fatal contract violation, rendered as `none`. -/
def ft_service_list_lookup : List FT_ServiceDescRec → String → Option FT_Pointer
  | [], _ => none
  | desc :: rest, service_id =>
    match desc.serv_id with
    | none => some NULL
    | some s =>
      if s = service_id then some desc.serv_data
      else ft_service_list_lookup rest service_id

/-! ## Sample modules and faces -/

/-- A services cache with every slot NULL. -/
def emptyCache : FT_ServiceCacheRec := ⟨NULL, NULL, NULL⟩

/-- A face freshly bound to module `M`: empty cache, no call made yet. -/
def freshWorld (M : FT_ModuleRec) : World := ⟨⟨M, ⟨emptyCache⟩⟩, []⟩

/-- A module at address 256 whose `get_interface` scans a descriptor table that exports
`postscript-name` (at address 4096) and `glyph-dict` (at address 8192). -/
def tableModule : FT_ModuleRec :=
  ⟨256, ⟨some (fun _ _ id =>
    (ft_service_list_lookup (serviceTable [("postscript-name", 4096), ("glyph-dict", 8192)])
      id).getD NULL)⟩⟩

/-- A module at address 512 whose class has no `get_interface` (NULL function pointer). -/
def bareModule : FT_ModuleRec := ⟨512, ⟨none⟩⟩

/-- A module at address 768 whose `get_interface` answers every id with the pointer
`(void*)-2`, the very value of the magic number. -/
def magicModule : FT_ModuleRec := ⟨768, ⟨some (fun _ _ _ => FT_SERVICE_UNAVAILABLE)⟩⟩

/-- A module at address 1024 whose `get_interface` answers NULL on its first call and
the pointer 4096 on every later call. -/
def lateModule : FT_ModuleRec :=
  ⟨1024, ⟨some (fun history _ _ => if history = [] then NULL else 4096)⟩⟩

/-- A face bound to `lateModule` whose slot `multi_masters` already holds the magic
number after one call that answered NULL. -/
def negativeWorld : World :=
  ⟨⟨lateModule, ⟨⟨NULL, FT_SERVICE_UNAVAILABLE, NULL⟩⟩⟩, [⟨1024, "multi-masters"⟩]⟩

/-- A face bound to `tableModule` whose slot `postscript_name` already holds 4096. -/
def hitWorld : World :=
  ⟨⟨tableModule, ⟨⟨4096, NULL, NULL⟩⟩⟩, [⟨256, "postscript-name"⟩]⟩

/-- The service id each cache slot is looked up with in the samples. -/
def sampleId : CacheField → String
  | .postscript_name => "postscript-name"
  | .multi_masters => "multi-masters"
  | .glyph_dict => "glyph-dict"

/-! ## Basic facts -/

theorem unavailable_val : FT_SERVICE_UNAVAILABLE = 18446744073709551614 := by
  decide

theorem unavailable_ne_null : FT_SERVICE_UNAVAILABLE ≠ NULL := by
  rw [unavailable_val]; decide

theorem slot_setSlot_same (w : World) (field : CacheField) (v : FT_Pointer) :
    (w.setSlot field v).slot field = v := by
  cases field <;> rfl

theorem slot_setSlot_other (w : World) (field other : CacheField) (v : FT_Pointer)
    (h : other ≠ field) : (w.setSlot field v).slot other = w.slot other := by
  cases field <;> cases other <;> first | rfl | exact absurd rfl h

theorem calls_setSlot (w : World) (field : CacheField) (v : FT_Pointer) :
    (w.setSlot field v).calls = w.calls := rfl

theorem driver_setSlot (w : World) (field : CacheField) (v : FT_Pointer) :
    (w.setSlot field v).face.driver = w.face.driver := rfl

theorem find_none (w : World) (id : String) (h : w.face.driver.clazz.get_interface = none) :
    FT_FACE_FIND_SERVICE w id = (w, NULL) := by
  simp [FT_FACE_FIND_SERVICE, h]

theorem find_some (w : World) (id : String) (g : List Call → Nat → String → FT_Pointer)
    (h : w.face.driver.clazz.get_interface = some g) :
    FT_FACE_FIND_SERVICE w id =
      ({ w with calls := w.calls ++ [⟨w.face.driver.handle, id⟩] },
        g w.calls w.face.driver.handle id) := by
  simp [FT_FACE_FIND_SERVICE, h]

theorem find_face (w : World) (id : String) : (FT_FACE_FIND_SERVICE w id).1.face = w.face := by
  cases h : w.face.driver.clazz.get_interface with
  | none => rw [find_none w id h]
  | some g => rw [find_some w id g h]

theorem find_slot (w : World) (id : String) (field : CacheField) :
    (FT_FACE_FIND_SERVICE w id).1.slot field = w.slot field := by
  unfold World.slot
  rw [find_face]

theorem lookup_unavailable (w : World) (field : CacheField) (id : String)
    (h : w.slot field = FT_SERVICE_UNAVAILABLE) :
    FT_FACE_LOOKUP_SERVICE w field id = (w, NULL) := by
  unfold World.slot at h
  simp [FT_FACE_LOOKUP_SERVICE, h]

theorem lookup_present (w : World) (field : CacheField) (id : String)
    (h0 : w.slot field ≠ NULL) (h1 : w.slot field ≠ FT_SERVICE_UNAVAILABLE) :
    FT_FACE_LOOKUP_SERVICE w field id = (w, w.slot field) := by
  unfold World.slot at h0 h1 ⊢
  simp [FT_FACE_LOOKUP_SERVICE, h0, h1]

theorem lookup_null (w : World) (field : CacheField) (id : String)
    (h : w.slot field = NULL) :
    FT_FACE_LOOKUP_SERVICE w field id =
      ((FT_FACE_FIND_SERVICE w id).1.setSlot field
          (if (FT_FACE_FIND_SERVICE w id).2 ≠ NULL then (FT_FACE_FIND_SERVICE w id).2
           else FT_SERVICE_UNAVAILABLE),
        (FT_FACE_FIND_SERVICE w id).2) := by
  unfold World.slot at h
  have hne : NULL ≠ FT_SERVICE_UNAVAILABLE := fun e => unavailable_ne_null e.symm
  simp [FT_FACE_LOOKUP_SERVICE, h, hne]

theorem lookup_slot_other (w : World) (field other : CacheField) (id : String)
    (h : other ≠ field) : (FT_FACE_LOOKUP_SERVICE w field id).1.slot other = w.slot other := by
  by_cases hu : w.slot field = FT_SERVICE_UNAVAILABLE
  · rw [lookup_unavailable w field id hu]
  · by_cases hn : w.slot field = NULL
    · rw [lookup_null w field id hn]
      simp only []
      rw [slot_setSlot_other _ _ _ _ h, find_slot]
    · rw [lookup_present w field id hn hu]

theorem lookup_of_ne_null (w : World) (field : CacheField) (id : String)
    (h : w.slot field ≠ NULL) : (FT_FACE_LOOKUP_SERVICE w field id).1 = w := by
  by_cases hu : w.slot field = FT_SERVICE_UNAVAILABLE
  · rw [lookup_unavailable w field id hu]
  · rw [lookup_present w field id h hu]

/-- A slot that is not NULL keeps its value through any single operation. -/
theorem run_slot_of_ne_null (w : World) (op : Op) (field : CacheField)
    (h : w.slot field ≠ NULL) : (op.run w).1.slot field = w.slot field := by
  cases op with
  | find id => exact find_slot w id field
  | lookup f id =>
    by_cases hf : field = f
    · subst hf
      show (FT_FACE_LOOKUP_SERVICE w field id).1.slot field = w.slot field
      rw [lookup_of_ne_null w field id h]
    · exact lookup_slot_other w f field id hf

/-- Every recorded step is a faithful record of running its operation, and a property of
states that every operation preserves holds before every step. -/
theorem steps_sound (inv : World → Prop) (hinv : ∀ w op, inv w → inv (Op.run w op).1) :
    ∀ (ops : List Op) (w : World), inv w → ∀ st ∈ steps w ops,
      inv st.before ∧ st.after = (st.op.run st.before).1 ∧
        st.ptr = (st.op.run st.before).2 := by
  intro ops
  induction ops with
  | nil => intro w _ st hst; simp [steps] at hst
  | cons op ops ih =>
    intro w hw st hst
    simp only [steps, List.mem_cons] at hst
    rcases hst with rfl | hst
    · exact ⟨hw, rfl, rfl⟩
    · exact ih _ (hinv w op hw) st hst

theorem runOps_sound (inv : World → Prop) (hinv : ∀ w op, inv w → inv (Op.run w op).1) :
    ∀ (ops : List Op) (w : World), inv w → inv (runOps w ops) := by
  intro ops
  induction ops with
  | nil => intro w hw; exact hw
  | cons op ops ih => intro w hw; exact ih _ (hinv w op hw)

/-- Cached lookups on a slot that is not NULL leave the state as it is. -/
theorem runOps_lookups_of_ne_null (field : CacheField) (ids : List String) (w : World)
    (h : w.slot field ≠ NULL) : runOps w (ids.map (Op.lookup field)) = w := by
  induction ids with
  | nil => rfl
  | cons id ids ih =>
    show runOps (FT_FACE_LOOKUP_SERVICE w field id).1 (ids.map (Op.lookup field)) = w
    rw [lookup_of_ne_null w field id h]
    exact ih

/-- After the populate step the slot is not NULL. -/
theorem lookup_slot_ne_null (w : World) (field : CacheField) (id : String) :
    (FT_FACE_LOOKUP_SERVICE w field id).1.slot field ≠ NULL := by
  by_cases hn : w.slot field = NULL
  · rw [lookup_null w field id hn]
    simp only []
    rw [slot_setSlot_same]
    split
    · assumption
    · exact unavailable_ne_null
  · rw [lookup_of_ne_null w field id hn]
    exact hn

/-- A single operation changes a slot only from NULL to a non-NULL value, and only when it
is a cached lookup on that slot. -/
theorem run_change (w : World) (op : Op) (field : CacheField)
    (h : (op.run w).1.slot field ≠ w.slot field) :
    w.slot field = NULL ∧ (op.run w).1.slot field ≠ NULL ∧ ∃ id, op = Op.lookup field id := by
  have hn : w.slot field = NULL := by
    by_contra hne
    exact h (run_slot_of_ne_null w op field hne)
  cases op with
  | find id => exact absurd (find_slot w id field) h
  | lookup f id =>
    by_cases hf : field = f
    · subst hf
      exact ⟨hn, lookup_slot_ne_null w field id, id, rfl⟩
    · exact absurd (lookup_slot_other w f field id hf) h

theorem steps_append (pre post : List Op) (w : World) :
    steps w (pre ++ post) = steps w pre ++ steps (runOps w pre) post := by
  induction pre generalizing w with
  | nil => rfl
  | cons op pre ih => simp [steps, runOps, ih]

theorem runOps_append (pre post : List Op) (w : World) :
    runOps w (pre ++ post) = runOps (runOps w pre) post := by
  induction pre generalizing w with
  | nil => rfl
  | cons op pre ih => simp [runOps, ih]

/-- No step changes a slot that is not NULL at the start. -/
theorem countP_changes_of_ne_null (field : CacheField) (ops : List Op) (w : World)
    (h : w.slot field ≠ NULL) : (steps w ops).countP (Step.changes field) = 0 := by
  induction ops generalizing w with
  | nil => rfl
  | cons op ops ih =>
    have hkeep := run_slot_of_ne_null w op field h
    simp only [steps]
    rw [List.countP_cons, ih _ (by rw [hkeep]; exact h)]
    simp [Step.changes, hkeep]

theorem countP_changes_le_one (field : CacheField) (ops : List Op) (w : World) :
    (steps w ops).countP (Step.changes field) ≤ 1 := by
  induction ops generalizing w with
  | nil => simp [steps]
  | cons op ops ih =>
    simp only [steps]
    rw [List.countP_cons]
    by_cases hc : (op.run w).1.slot field = w.slot field
    · have := ih (op.run w).1
      simpa [Step.changes, hc] using this
    · have hnn := (run_change w op field hc).2.1
      rw [countP_changes_of_ne_null field ops _ hnn]
      simp [Step.changes, hc]

/-- No operation changes the driver module the face is bound to. -/
theorem run_driver (w : World) (op : Op) : (op.run w).1.face.driver = w.face.driver := by
  cases op with
  | find id => show (FT_FACE_FIND_SERVICE w id).1.face.driver = _; rw [find_face]
  | lookup f id =>
    show (FT_FACE_LOOKUP_SERVICE w f id).1.face.driver = _
    by_cases hn : w.slot f = NULL
    · rw [lookup_null w f id hn]
      simp only []
      rw [driver_setSlot, find_face]
    · rw [lookup_of_ne_null w f id hn]

/-- The scan skips leading descriptors whose id differs from the requested one. -/
theorem lookup_skip (i : String) (rest : List FT_ServiceDescRec) :
    ∀ pre : List (String × FT_Pointer), (∀ e ∈ pre, e.1 ≠ i) →
      ft_service_list_lookup (pre.map (fun d => ⟨some d.1, d.2⟩) ++ rest) i =
        ft_service_list_lookup rest i := by
  intro pre
  induction pre with
  | nil => intro _; rfl
  | cons e pre ih =>
    intro h
    have he : e.1 ≠ i := h e (List.mem_cons_self _ _)
    have hpre : ∀ x ∈ pre, x.1 ≠ i := fun x hx => h x (List.mem_cons_of_mem _ hx)
    simp [ft_service_list_lookup, he, ih hpre]

theorem lookup_first (i : String) (d : FT_Pointer) (pre post : List (String × FT_Pointer))
    (h : ∀ e ∈ pre, e.1 ≠ i) :
    ft_service_list_lookup (serviceTable (pre ++ (i, d) :: post)) i = some d := by
  unfold serviceTable
  rw [List.map_append, List.append_assoc, lookup_skip i _ pre h]
  simp [ft_service_list_lookup]

theorem lookup_absent (i : String) (ds : List (String × FT_Pointer))
    (h : ∀ e ∈ ds, e.1 ≠ i) :
    ft_service_list_lookup (serviceTable ds) i = some NULL := by
  unfold serviceTable
  rw [lookup_skip i _ ds h]
  simp [ft_service_list_lookup, terminator]

/-! ## The cached lookup, one call at a time -/

/-- Claim C1 (populate step).  When the cache slot `field` holds NULL, the cached lookup
delivers in `ptr` exactly the value `r` that `FT_FACE_FIND_SERVICE` yields for the face's
driver module and the id; afterwards the slot holds `r` when `r` is not NULL and
`FT_SERVICE_UNAVAILABLE` when `r` is NULL. -/
theorem lookup_populates (w : World) (field : CacheField) (id : String)
    (h : w.slot field = NULL) :
    (FT_FACE_LOOKUP_SERVICE w field id).2 = (FT_FACE_FIND_SERVICE w id).2 ∧
    ((FT_FACE_FIND_SERVICE w id).2 ≠ NULL →
      (FT_FACE_LOOKUP_SERVICE w field id).1.slot field = (FT_FACE_FIND_SERVICE w id).2) ∧
    ((FT_FACE_FIND_SERVICE w id).2 = NULL →
      (FT_FACE_LOOKUP_SERVICE w field id).1.slot field = FT_SERVICE_UNAVAILABLE) := by
  rw [lookup_null w field id h]
  refine ⟨rfl, ?_, ?_⟩
  · intro hr
    simp [slot_setSlot_same, hr]
  · intro hr
    simp [slot_setSlot_same, hr]

/-- Claim C2 (positive cache hit).  When the cache slot `field` holds a value `p` that is
neither NULL nor `FT_SERVICE_UNAVAILABLE`, the cached lookup delivers `ptr = p`, makes no
call to the module's `get_interface` (the call log is unchanged), and leaves the slot
equal to `p`; indeed it leaves the whole state as it was. -/
theorem lookup_hit (w : World) (field : CacheField) (id : String) (p : FT_Pointer)
    (hp : w.slot field = p) (h0 : p ≠ NULL) (h1 : p ≠ FT_SERVICE_UNAVAILABLE) :
    (FT_FACE_LOOKUP_SERVICE w field id).2 = p ∧
    (FT_FACE_LOOKUP_SERVICE w field id).1.calls = w.calls ∧
    (FT_FACE_LOOKUP_SERVICE w field id).1.slot field = p ∧
    (FT_FACE_LOOKUP_SERVICE w field id).1 = w := by
  subst hp
  rw [lookup_present w field id h0 h1]
  exact ⟨rfl, rfl, rfl, rfl⟩

/-- Worked instance: a fresh face on `tableModule`, slot `postscript_name`. -/
theorem lookup_populates_witness :
    (freshWorld tableModule).slot .postscript_name = NULL ∧
    (FT_FACE_FIND_SERVICE (freshWorld tableModule) "postscript-name").2 ≠ NULL ∧
    (FT_FACE_LOOKUP_SERVICE (freshWorld tableModule) .postscript_name "postscript-name").2 =
      (FT_FACE_FIND_SERVICE (freshWorld tableModule) "postscript-name").2 ∧
    (FT_FACE_LOOKUP_SERVICE (freshWorld tableModule) .postscript_name
        "postscript-name").1.slot .postscript_name =
      (FT_FACE_FIND_SERVICE (freshWorld tableModule) "postscript-name").2 :=
  ⟨rfl, by decide,
    (lookup_populates (freshWorld tableModule) .postscript_name "postscript-name" rfl).1,
    (lookup_populates (freshWorld tableModule) .postscript_name "postscript-name" rfl).2.1
      (by decide)⟩

/-- Worked instance: the slot `postscript_name` of `hitWorld` holds 4096. -/
theorem lookup_hit_witness :
    hitWorld.slot .postscript_name = 4096 ∧
    (FT_FACE_LOOKUP_SERVICE hitWorld .postscript_name "postscript-name").2 = 4096 ∧
    (FT_FACE_LOOKUP_SERVICE hitWorld .postscript_name "postscript-name").1.calls =
      hitWorld.calls ∧
    (FT_FACE_LOOKUP_SERVICE hitWorld .postscript_name "postscript-name").1.slot
      .postscript_name = 4096 ∧
    (FT_FACE_LOOKUP_SERVICE hitWorld .postscript_name "postscript-name").1 = hitWorld :=
  ⟨rfl, lookup_hit hitWorld .postscript_name "postscript-name" 4096 rfl (by decide)
    (by rw [unavailable_val]; decide)⟩

/-- Claim C3 (negative caching).  Once a cache slot holds `FT_SERVICE_UNAVAILABLE`, then
over any finite sequence of operations on the face (cached lookups on any slot, uncached
lookups) and for any module, whatever its `get_interface` would answer: the slot holds
`FT_SERVICE_UNAVAILABLE` before and after every step and at the end, and every cached
lookup on that slot delivers `ptr = NULL` and makes no call to `get_interface` (the call
log after it is the call log before it). -/
theorem negative_caching (w : World) (field : CacheField)
    (h : w.slot field = FT_SERVICE_UNAVAILABLE) (ops : List Op) :
    (runOps w ops).slot field = FT_SERVICE_UNAVAILABLE ∧
    ∀ st ∈ steps w ops,
      st.before.slot field = FT_SERVICE_UNAVAILABLE ∧
      st.after.slot field = FT_SERVICE_UNAVAILABLE ∧
      ∀ id, st.op = Op.lookup field id →
        st.ptr = NULL ∧ st.after.calls = st.before.calls := by
  have hinv : ∀ (w : World) (op : Op), w.slot field = FT_SERVICE_UNAVAILABLE →
      (Op.run w op).1.slot field = FT_SERVICE_UNAVAILABLE := by
    intro w op hw
    rw [run_slot_of_ne_null w op field (by rw [hw]; exact unavailable_ne_null), hw]
  refine ⟨runOps_sound _ hinv ops w h, ?_⟩
  intro st hst
  obtain ⟨hb, ha, hp⟩ := steps_sound _ hinv ops w h st hst
  refine ⟨hb, ?_, ?_⟩
  · rw [ha]; exact hinv _ _ hb
  · intro id hop
    rw [hp, ha, hop]
    show (FT_FACE_LOOKUP_SERVICE st.before field id).2 = NULL ∧
      (FT_FACE_LOOKUP_SERVICE st.before field id).1.calls = st.before.calls
    rw [lookup_unavailable st.before field id hb]
    exact ⟨rfl, rfl⟩

/-- Worked instance: the slot `multi_masters` of `negativeWorld` holds the
magic number while the module would now answer 4096; three operations are run. -/
theorem negative_caching_witness :
    negativeWorld.slot .multi_masters = FT_SERVICE_UNAVAILABLE ∧
    (FT_FACE_FIND_SERVICE negativeWorld "multi-masters").2 = 4096 ∧
    (runOps negativeWorld
      [.lookup .multi_masters "multi-masters", .find "multi-masters",
        .lookup .multi_masters "multi-masters"]).slot .multi_masters
      = FT_SERVICE_UNAVAILABLE ∧
    ∀ st ∈ steps negativeWorld
        [.lookup .multi_masters "multi-masters", .find "multi-masters",
          .lookup .multi_masters "multi-masters"],
      st.before.slot .multi_masters = FT_SERVICE_UNAVAILABLE ∧
      st.after.slot .multi_masters = FT_SERVICE_UNAVAILABLE ∧
      ∀ id, st.op = Op.lookup .multi_masters id →
        st.ptr = NULL ∧ st.after.calls = st.before.calls :=
  ⟨rfl, by decide, negative_caching negativeWorld .multi_masters rfl _⟩

/-- Claim C4 as stated fails: on a fresh face bound to a module whose class has no
`get_interface`, one cached lookup (and likewise three) on the NULL slot `multi_masters`
makes no call at all, not exactly one. -/
theorem call_count_counterexample :
    (freshWorld bareModule).slot .multi_masters = NULL ∧
    callsMade (freshWorld bareModule)
      (runOps (freshWorld bareModule) [.lookup .multi_masters "multi-masters"]) = 0 ∧
    callsMade (freshWorld bareModule)
      (runOps (freshWorld bareModule)
        [.lookup .multi_masters "multi-masters", .lookup .multi_masters "multi-masters",
          .lookup .multi_masters "multi-masters"]) ≠ 1 := by
  decide

/-- Claim C4, amended (cache population count).  The slot `field` starts NULL and
N = `rest.length + 1` cached lookups are made in sequence on that slot.  When the class of
the driver module has a `get_interface`, exactly one call to it is made over the whole
sequence: the call log grows by the single call `get_interface( module, id )` of the first
lookup, whatever the answers of the module are.  When the class has no `get_interface`,
no call is made. -/
theorem call_count (w : World) (field : CacheField) (id : String) (rest : List String)
    (h : w.slot field = NULL) :
    (∀ g, w.face.driver.clazz.get_interface = some g →
      (runOps w ((id :: rest).map (Op.lookup field))).calls =
          w.calls ++ [⟨w.face.driver.handle, id⟩] ∧
        callsMade w (runOps w ((id :: rest).map (Op.lookup field))) = 1) ∧
    (w.face.driver.clazz.get_interface = none →
      (runOps w ((id :: rest).map (Op.lookup field))).calls = w.calls ∧
        callsMade w (runOps w ((id :: rest).map (Op.lookup field))) = 0) := by
  have hrun : runOps w ((id :: rest).map (Op.lookup field)) =
      (FT_FACE_LOOKUP_SERVICE w field id).1 := by
    show runOps (FT_FACE_LOOKUP_SERVICE w field id).1 (rest.map (Op.lookup field)) = _
    exact runOps_lookups_of_ne_null field rest _ (lookup_slot_ne_null w field id)
  rw [hrun, lookup_null w field id h]
  constructor
  · intro g hg
    rw [find_some w id g hg]
    simp [callsMade, calls_setSlot]
  · intro hg
    rw [find_none w id hg]
    simp [callsMade, calls_setSlot]

/-- Worked instance: three cached lookups of `glyph_dict` on a fresh face bound to
`tableModule`, and on a fresh face bound to `bareModule`. -/
theorem call_count_witness :
    (freshWorld tableModule).slot .glyph_dict = NULL ∧
    tableModule.clazz.get_interface.isSome = true ∧
    callsMade (freshWorld tableModule)
      (runOps (freshWorld tableModule)
        (["glyph-dict", "glyph-dict", "glyph-dict"].map (Op.lookup .glyph_dict))) = 1 ∧
    (freshWorld bareModule).face.driver.clazz.get_interface = none ∧
    callsMade (freshWorld bareModule)
      (runOps (freshWorld bareModule)
        (["glyph-dict", "glyph-dict", "glyph-dict"].map (Op.lookup .glyph_dict))) = 0 :=
  ⟨rfl, rfl,
    ((call_count (freshWorld tableModule) .glyph_dict "glyph-dict"
      ["glyph-dict", "glyph-dict"] rfl).1 _ rfl).2,
    rfl,
    ((call_count (freshWorld bareModule) .glyph_dict "glyph-dict"
      ["glyph-dict", "glyph-dict"] rfl).2 rfl).2⟩

/-- Claim C5 as stated fails for the non-NULL pointer value `(void*)-2`: on a fresh face
bound to `magicModule`, whose `get_interface` returns P = `FT_SERVICE_UNAVAILABLE`, the
first cached lookup delivers P and stores P, and the second cached lookup on the same
slot delivers NULL, which is not P. -/
theorem repeated_lookup_counterexample :
    (freshWorld magicModule).slot .postscript_name = NULL ∧
    (FT_FACE_FIND_SERVICE (freshWorld magicModule) "postscript-name").2
      = FT_SERVICE_UNAVAILABLE ∧
    FT_SERVICE_UNAVAILABLE ≠ NULL ∧
    (FT_FACE_LOOKUP_SERVICE (freshWorld magicModule) .postscript_name "postscript-name").2
      = FT_SERVICE_UNAVAILABLE ∧
    (FT_FACE_LOOKUP_SERVICE
      (FT_FACE_LOOKUP_SERVICE (freshWorld magicModule) .postscript_name "postscript-name").1
      .postscript_name "postscript-name").2 = NULL ∧
    (FT_FACE_LOOKUP_SERVICE
      (FT_FACE_LOOKUP_SERVICE (freshWorld magicModule) .postscript_name "postscript-name").1
      .postscript_name "postscript-name").2 ≠
    (FT_FACE_LOOKUP_SERVICE (freshWorld magicModule) .postscript_name "postscript-name").2 := by
  decide

/-- Claim C5, amended (repeated lookup returns the same capability).  The slot starts
NULL and the module's `get_interface` returns for the id a pointer P that is neither NULL
nor `FT_SERVICE_UNAVAILABLE`.  Then the first cached lookup delivers P and leaves the slot
holding P, and a second cached lookup on the same slot (with any id) delivers the same P,
makes no call to `get_interface` and leaves the slot holding P. -/
theorem repeated_lookup (w : World) (field : CacheField) (id id2 : String)
    (g : List Call → Nat → String → FT_Pointer) (P : FT_Pointer)
    (h : w.slot field = NULL)
    (hg : w.face.driver.clazz.get_interface = some g)
    (hP : g w.calls w.face.driver.handle id = P)
    (h0 : P ≠ NULL) (h1 : P ≠ FT_SERVICE_UNAVAILABLE) :
    (FT_FACE_LOOKUP_SERVICE w field id).2 = P ∧
    (FT_FACE_LOOKUP_SERVICE w field id).1.slot field = P ∧
    (FT_FACE_LOOKUP_SERVICE (FT_FACE_LOOKUP_SERVICE w field id).1 field id2).2 = P ∧
    (FT_FACE_LOOKUP_SERVICE (FT_FACE_LOOKUP_SERVICE w field id).1 field id2).1.calls =
      (FT_FACE_LOOKUP_SERVICE w field id).1.calls ∧
    (FT_FACE_LOOKUP_SERVICE (FT_FACE_LOOKUP_SERVICE w field id).1 field id2).1.slot field
      = P := by
  have hfind : (FT_FACE_FIND_SERVICE w id).2 = P := by rw [find_some w id g hg]; exact hP
  have hptr : (FT_FACE_LOOKUP_SERVICE w field id).2 = P := by
    rw [lookup_null w field id h]; exact hfind
  have hslot : (FT_FACE_LOOKUP_SERVICE w field id).1.slot field = P := by
    rw [lookup_null w field id h]
    simp only []
    rw [slot_setSlot_same, hfind, if_pos h0]
  refine ⟨hptr, hslot, ?_⟩
  rw [lookup_present _ field id2 (by rw [hslot]; exact h0) (by rw [hslot]; exact h1)]
  exact ⟨hslot, rfl, hslot⟩

/-- Worked instance: slot `postscript_name` of a fresh face bound to
`tableModule`, whose answer for `postscript-name` is 4096. -/
theorem repeated_lookup_witness :
    (freshWorld tableModule).slot .postscript_name = NULL ∧
    (4096 : FT_Pointer) ≠ NULL ∧ (4096 : FT_Pointer) ≠ FT_SERVICE_UNAVAILABLE ∧
    (FT_FACE_LOOKUP_SERVICE (freshWorld tableModule) .postscript_name "postscript-name").2
      = 4096 ∧
    (FT_FACE_LOOKUP_SERVICE
      (FT_FACE_LOOKUP_SERVICE (freshWorld tableModule) .postscript_name "postscript-name").1
      .postscript_name "postscript-name").2 = 4096 :=
  ⟨rfl, by decide, by decide,
    (repeated_lookup (freshWorld tableModule) .postscript_name "postscript-name"
      "postscript-name" _ 4096 rfl rfl (by decide) (by decide) (by decide)).1,
    (repeated_lookup (freshWorld tableModule) .postscript_name "postscript-name"
      "postscript-name" _ 4096 rfl rfl (by decide) (by decide) (by decide)).2.2.1⟩

/-- Claim C6 (uncached lookup).  `FT_FACE_FIND_SERVICE` delivers `ptr = NULL`, making no
call, when the class of the driver module has no `get_interface`; otherwise it delivers
exactly the value of `get_interface( module, id )`, called once (the call log grows by that
one call).  In both cases it writes no slot of the services cache (the face after is the
face before) and reads none (with any other cache contents `c` in the face, the value
delivered and the calls made are the same). -/
theorem find_service_uncached (w : World) (id : String) :
    (w.face.driver.clazz.get_interface = none →
      (FT_FACE_FIND_SERVICE w id).2 = NULL ∧ (FT_FACE_FIND_SERVICE w id).1.calls = w.calls) ∧
    (∀ g, w.face.driver.clazz.get_interface = some g →
      (FT_FACE_FIND_SERVICE w id).2 = g w.calls w.face.driver.handle id ∧
      (FT_FACE_FIND_SERVICE w id).1.calls = w.calls ++ [⟨w.face.driver.handle, id⟩]) ∧
    (FT_FACE_FIND_SERVICE w id).1.face = w.face ∧
    ∀ c : FT_ServiceCacheRec,
      (FT_FACE_FIND_SERVICE { w with face := { w.face with internal := ⟨c⟩ } } id).2 =
        (FT_FACE_FIND_SERVICE w id).2 ∧
      (FT_FACE_FIND_SERVICE { w with face := { w.face with internal := ⟨c⟩ } } id).1.calls =
        (FT_FACE_FIND_SERVICE w id).1.calls := by
  refine ⟨?_, ?_, find_face w id, ?_⟩
  · intro h
    rw [find_none w id h]
    exact ⟨rfl, rfl⟩
  · intro g h
    rw [find_some w id g h]
    exact ⟨rfl, rfl⟩
  · intro c
    cases h : w.face.driver.clazz.get_interface with
    | none =>
      rw [find_none w id h, find_none _ id (by simpa using h)]
      exact ⟨rfl, rfl⟩
    | some g =>
      rw [find_some w id g h, find_some _ id g (by simpa using h)]
      exact ⟨rfl, rfl⟩

/-- Worked instance: a face bound to `bareModule` (no `get_interface`)
and a face bound to `tableModule` asked for `glyph-dict`. -/
theorem find_service_uncached_witness :
    ((freshWorld bareModule).face.driver.clazz.get_interface = none ∧
      (FT_FACE_FIND_SERVICE (freshWorld bareModule) "glyph-dict").2 = NULL ∧
      (FT_FACE_FIND_SERVICE (freshWorld bareModule) "glyph-dict").1.calls = []) ∧
    ((hitWorld.face.driver.clazz.get_interface).isSome = true ∧
      (FT_FACE_FIND_SERVICE hitWorld "glyph-dict").2 = 8192 ∧
      (FT_FACE_FIND_SERVICE hitWorld "glyph-dict").1.calls =
        [⟨256, "postscript-name"⟩, ⟨256, "glyph-dict"⟩]) :=
  ⟨⟨rfl, (find_service_uncached (freshWorld bareModule) "glyph-dict").1 rfl⟩,
    ⟨rfl, (find_service_uncached hitWorld "glyph-dict").2.1 _ rfl⟩⟩

/-- Claim C7 (one-way slot lifecycle).  Over every finite sequence of cached and uncached
lookups on a face, on any slots and with any ids, and for every cache slot `field`:
a step that changes the slot finds it NULL, leaves it non-NULL, and is a cached lookup on
that very slot; at most one step of the sequence changes the slot; and from any point of
the sequence at which the slot is not NULL, every later step leaves the slot at that same
value, which is also its value at the end (so it never returns to NULL). -/
theorem slot_lifecycle (w : World) (ops : List Op) (field : CacheField) :
    (∀ st ∈ steps w ops, st.after.slot field ≠ st.before.slot field →
      st.before.slot field = NULL ∧ st.after.slot field ≠ NULL ∧
        ∃ id, st.op = Op.lookup field id) ∧
    (steps w ops).countP (Step.changes field) ≤ 1 ∧
    ∀ pre post, ops = pre ++ post → (runOps w pre).slot field ≠ NULL →
      steps w ops = steps w pre ++ steps (runOps w pre) post ∧
      (∀ st ∈ steps (runOps w pre) post,
        st.before.slot field = (runOps w pre).slot field ∧
        st.after.slot field = (runOps w pre).slot field) ∧
      (runOps w ops).slot field = (runOps w pre).slot field := by
  refine ⟨?_, countP_changes_le_one field ops w, ?_⟩
  · intro st hst hch
    obtain ⟨-, ha, -⟩ := steps_sound (fun _ => True) (fun _ _ _ => trivial) ops w trivial st hst
    rw [ha] at hch ⊢
    exact run_change st.before st.op field hch
  · intro pre post hops hnn
    have hinv : ∀ (v : World) (op : Op), v.slot field = (runOps w pre).slot field →
        (Op.run v op).1.slot field = (runOps w pre).slot field := by
      intro v op hv
      rw [run_slot_of_ne_null v op field (by rw [hv]; exact hnn), hv]
    refine ⟨by rw [hops, steps_append], ?_, ?_⟩
    · intro st hst
      obtain ⟨hb, ha, -⟩ := steps_sound _ hinv post (runOps w pre) rfl st hst
      exact ⟨hb, by rw [ha]; exact hinv _ _ hb⟩
    · rw [hops, runOps_append]
      exact runOps_sound _ hinv post (runOps w pre) rfl

/-- Worked instance: five operations on a fresh face bound to `tableModule`;
the first one changes the slot `postscript_name` from NULL to 4096, where it stays. -/
theorem slot_lifecycle_witness :
    ((freshWorld tableModule).slot .postscript_name = NULL ∧
      (FT_FACE_LOOKUP_SERVICE (freshWorld tableModule) .postscript_name
        "postscript-name").1.slot .postscript_name ≠ NULL ∧
      ∃ id, Op.lookup .postscript_name "postscript-name" = Op.lookup .postscript_name id) ∧
    (runOps (freshWorld tableModule) [.lookup .postscript_name "postscript-name"]).slot
      .postscript_name = 4096 ∧
    (∀ st ∈ steps (runOps (freshWorld tableModule) [.lookup .postscript_name "postscript-name"])
        [.find "glyph-dict", .lookup .postscript_name "glyph-dict",
          .lookup .glyph_dict "glyph-dict", .lookup .postscript_name "postscript-name"],
      st.before.slot .postscript_name =
        (runOps (freshWorld tableModule) [.lookup .postscript_name "postscript-name"]).slot
          .postscript_name ∧
      st.after.slot .postscript_name =
        (runOps (freshWorld tableModule) [.lookup .postscript_name "postscript-name"]).slot
          .postscript_name) :=
  ⟨(slot_lifecycle (freshWorld tableModule)
      [.lookup .postscript_name "postscript-name", .find "glyph-dict",
        .lookup .postscript_name "glyph-dict", .lookup .glyph_dict "glyph-dict",
        .lookup .postscript_name "postscript-name"] .postscript_name).1
      ⟨freshWorld tableModule, .lookup .postscript_name "postscript-name",
        (FT_FACE_LOOKUP_SERVICE (freshWorld tableModule) .postscript_name "postscript-name").2,
        (FT_FACE_LOOKUP_SERVICE (freshWorld tableModule) .postscript_name "postscript-name").1⟩
      (List.mem_cons_self _ _) (by decide),
    by decide,
    ((slot_lifecycle (freshWorld tableModule)
      [.lookup .postscript_name "postscript-name", .find "glyph-dict",
        .lookup .postscript_name "glyph-dict", .lookup .glyph_dict "glyph-dict",
        .lookup .postscript_name "postscript-name"] .postscript_name).2.2
      [.lookup .postscript_name "postscript-name"]
      [.find "glyph-dict", .lookup .postscript_name "glyph-dict",
        .lookup .glyph_dict "glyph-dict", .lookup .postscript_name "postscript-name"]
      rfl (by decide)).2.1⟩

/-! ## Descriptor tables -/

/-- Claim C8 (table lookup, first match wins).  For every table made of descriptors `ds`
followed by the terminator `{ NULL, NULL }`, and every id `i`: the lookup returns the
data of the first descriptor whose id equals `i` (the descriptors before it having other
ids); it returns NULL when no descriptor has id `i`, and when the table holds only the
terminator; for the table `[("a", X), ("b", Y), terminator]` looking up "b" gives Y and
looking up "c" gives NULL; and when the first descriptor `(i, d)` with id `i` is followed
later by another `(i, d2)`, the result is `d`. -/
theorem service_list_lookup_first_match (ds : List (String × FT_Pointer)) (i : String) :
    (∀ pre d post, ds = pre ++ (i, d) :: post → (∀ e ∈ pre, e.1 ≠ i) →
      ft_service_list_lookup (serviceTable ds) i = some d) ∧
    ((∀ e ∈ ds, e.1 ≠ i) → ft_service_list_lookup (serviceTable ds) i = some NULL) ∧
    ft_service_list_lookup (serviceTable []) i = some NULL ∧
    (∀ X Y : FT_Pointer,
      ft_service_list_lookup (serviceTable [("a", X), ("b", Y)]) "b" = some Y ∧
      ft_service_list_lookup (serviceTable [("a", X), ("b", Y)]) "c" = some NULL) ∧
    (∀ pre mid post d d2, ds = pre ++ (i, d) :: (mid ++ (i, d2) :: post) →
      (∀ e ∈ pre, e.1 ≠ i) → ft_service_list_lookup (serviceTable ds) i = some d) := by
  refine ⟨?_, lookup_absent i ds, rfl, ?_, ?_⟩
  · rintro pre d post rfl h
    exact lookup_first i d pre post h
  · intro X Y
    constructor
    · exact lookup_first "b" Y [("a", X)] [] (by simp)
    · exact lookup_absent "c" [("a", X), ("b", Y)] (by simp)
  · rintro pre mid post d d2 rfl h
    exact lookup_first i d pre _ h

/-- Worked instance: the table
`[("a", 16), ("b", 32), ("b", 48), terminator]`, looked up for "b" and for "c". -/
theorem service_list_lookup_first_match_witness :
    ft_service_list_lookup (serviceTable [("a", 16), ("b", 32), ("b", 48)]) "b" = some 32 ∧
    ft_service_list_lookup (serviceTable [("a", 16), ("b", 32), ("b", 48)]) "c"
      = some NULL :=
  ⟨(service_list_lookup_first_match [("a", 16), ("b", 32), ("b", 48)] "b").1
      [("a", 16)] 32 [("b", 48)] rfl (by simp),
    (service_list_lookup_first_match [("a", 16), ("b", 32), ("b", 48)] "c").2.1 (by simp)⟩

/-! ## Rebinding -/

/-- Claim C9 as stated fails: after `hitWorld` is rebound to a module whose class has no
`get_interface`, every slot is NULL, and the next cached lookup of `postscript_name`
makes no call to `get_interface`, not exactly one. -/
theorem rebind_counterexample :
    (rebind hitWorld bareModule).slot .postscript_name = NULL ∧
    (rebind hitWorld bareModule).slot .multi_masters = NULL ∧
    (rebind hitWorld bareModule).slot .glyph_dict = NULL ∧
    callsMade (rebind hitWorld bareModule)
      (FT_FACE_LOOKUP_SERVICE (rebind hitWorld bareModule) .postscript_name
        "postscript-name").1 = 0 ∧
    callsMade (rebind hitWorld bareModule)
      (FT_FACE_LOOKUP_SERVICE (rebind hitWorld bareModule) .postscript_name
        "postscript-name").1 ≠ 1 := by
  decide

/-- Claim C9, amended (rebinding resets).  After a face is rebound to a module `M1` with
every cache slot reset to NULL, every slot reads NULL and the driver is `M1`.  For each
slot `field`, after any operations `ops` none of which is a cached lookup on `field`, the
slot is still NULL and the driver still `M1`, and the next cached lookup on `field`:
when the class of `M1` has a `get_interface`, makes exactly one call, `get_interface( M1,
id )` on the new module, delivers its answer, and stores the answer in the slot, or
`FT_SERVICE_UNAVAILABLE` when the answer is NULL; when the class of `M1` has no
`get_interface`, makes no call, delivers NULL and stores `FT_SERVICE_UNAVAILABLE`. -/
theorem rebind_resets (w : World) (M1 : FT_ModuleRec) (field : CacheField) (id : String)
    (ops : List Op) (hops : ∀ op ∈ ops, ∀ id2, op ≠ Op.lookup field id2) :
    (∀ f, (rebind w M1).slot f = NULL) ∧ (rebind w M1).face.driver = M1 ∧
    (runOps (rebind w M1) ops).slot field = NULL ∧
    (runOps (rebind w M1) ops).face.driver = M1 ∧
    (∀ g, M1.clazz.get_interface = some g →
      (FT_FACE_LOOKUP_SERVICE (runOps (rebind w M1) ops) field id).1.calls =
        (runOps (rebind w M1) ops).calls ++ [⟨M1.handle, id⟩] ∧
      (FT_FACE_LOOKUP_SERVICE (runOps (rebind w M1) ops) field id).2 =
        g (runOps (rebind w M1) ops).calls M1.handle id ∧
      (FT_FACE_LOOKUP_SERVICE (runOps (rebind w M1) ops) field id).1.slot field =
        (if g (runOps (rebind w M1) ops).calls M1.handle id ≠ NULL
          then g (runOps (rebind w M1) ops).calls M1.handle id
          else FT_SERVICE_UNAVAILABLE)) ∧
    (M1.clazz.get_interface = none →
      (FT_FACE_LOOKUP_SERVICE (runOps (rebind w M1) ops) field id).1.calls =
        (runOps (rebind w M1) ops).calls ∧
      (FT_FACE_LOOKUP_SERVICE (runOps (rebind w M1) ops) field id).2 = NULL ∧
      (FT_FACE_LOOKUP_SERVICE (runOps (rebind w M1) ops) field id).1.slot field =
        FT_SERVICE_UNAVAILABLE) := by
  have hall : ∀ f, (rebind w M1).slot f = NULL := by intro f; cases f <;> rfl
  have key : ∀ (ops : List Op) (v : World), (∀ op ∈ ops, ∀ id2, op ≠ Op.lookup field id2) →
      v.slot field = NULL → v.face.driver = M1 →
      (runOps v ops).slot field = NULL ∧ (runOps v ops).face.driver = M1 := by
    intro ops
    induction ops with
    | nil => intro v _ hs hd; exact ⟨hs, hd⟩
    | cons op ops ih =>
      intro v hne hs hd
      have hkeep : (op.run v).1.slot field = v.slot field := by
        by_contra hch
        obtain ⟨-, -, id2, hop⟩ := run_change v op field hch
        exact hne op (List.mem_cons_self _ _) id2 hop
      exact ih (op.run v).1 (fun o ho => hne o (List.mem_cons_of_mem _ ho))
        (by rw [hkeep, hs]) (by rw [run_driver, hd])
  obtain ⟨hs, hd⟩ := key ops (rebind w M1) hops (hall field) rfl
  refine ⟨hall, rfl, hs, hd, ?_, ?_⟩
  · intro g hg
    have hg2 : (runOps (rebind w M1) ops).face.driver.clazz.get_interface = some g := by
      rw [hd]; exact hg
    rw [lookup_null _ field id hs, find_some _ id g hg2, hd]
    exact ⟨rfl, rfl, slot_setSlot_same _ _ _⟩
  · intro hg
    have hg2 : (runOps (rebind w M1) ops).face.driver.clazz.get_interface = none := by
      rw [hd]; exact hg
    rw [lookup_null _ field id hs, find_none _ id hg2]
    refine ⟨rfl, rfl, ?_⟩
    simp [slot_setSlot_same]

/-- Worked instance: `hitWorld`, bound to `tableModule`, is rebound to
`lateModule`; after a cached lookup of `glyph_dict` and an uncached lookup, the next
cached lookup of `postscript_name` makes one call, on `lateModule` (address 1024). -/
theorem rebind_resets_witness :
    (∀ op ∈ [Op.lookup .glyph_dict "glyph-dict", Op.find "sfnt"],
      ∀ id2, op ≠ Op.lookup .postscript_name id2) ∧
    (lateModule.clazz.get_interface).isSome = true ∧
    (FT_FACE_LOOKUP_SERVICE
        (runOps (rebind hitWorld lateModule) [.lookup .glyph_dict "glyph-dict", .find "sfnt"])
        .postscript_name "postscript-name").1.calls =
      (runOps (rebind hitWorld lateModule)
        [.lookup .glyph_dict "glyph-dict", .find "sfnt"]).calls ++
        [⟨lateModule.handle, "postscript-name"⟩] :=
  ⟨by simp,
    rfl,
    ((rebind_resets hitWorld lateModule .postscript_name "postscript-name"
      [.lookup .glyph_dict "glyph-dict", .find "sfnt"] (by simp)).2.2.2.2.1 _ rfl).1⟩

/-! ## Cached against uncached lookup -/

/-- With a module whose answers do not depend on the call history, the uncached lookup
delivers the same pointer in every state bound to that module. -/
theorem find_ptr_of_fixed (w v : World) (id : String)
    (hd : v.face.driver = w.face.driver)
    (hfixed : ∀ g, w.face.driver.clazz.get_interface = some g →
      ∀ h1 h2 i, g h1 w.face.driver.handle i = g h2 w.face.driver.handle i) :
    (FT_FACE_FIND_SERVICE v id).2 = (FT_FACE_FIND_SERVICE w id).2 := by
  cases hg : w.face.driver.clazz.get_interface with
  | none =>
    rw [find_none w id hg, find_none v id (by rw [hd]; exact hg)]
  | some g =>
    rw [find_some w id g hg, find_some v id g (by rw [hd]; exact hg), hd]
    exact hfixed g hg _ _ _

/-- One cached lookup on a state whose slots agree with the uncached answers delivers the
uncached answer and keeps the agreement, when that answer is not the magic number. -/
theorem transparent_step (w v : World) (idOf : CacheField → String) (f : CacheField)
    (hd : v.face.driver = w.face.driver)
    (hfixed : ∀ g, w.face.driver.clazz.get_interface = some g →
      ∀ h1 h2 i, g h1 w.face.driver.handle i = g h2 w.face.driver.handle i)
    (hgood : ∀ x, SlotAgrees (FT_FACE_FIND_SERVICE w (idOf x)).2 (v.slot x))
    (hm : (FT_FACE_FIND_SERVICE w (idOf f)).2 ≠ FT_SERVICE_UNAVAILABLE) :
    (FT_FACE_LOOKUP_SERVICE v f (idOf f)).2 = (FT_FACE_FIND_SERVICE w (idOf f)).2 ∧
    (FT_FACE_LOOKUP_SERVICE v f (idOf f)).1.face.driver = w.face.driver ∧
    ∀ x, SlotAgrees (FT_FACE_FIND_SERVICE w (idOf x)).2
      ((FT_FACE_LOOKUP_SERVICE v f (idOf f)).1.slot x) := by
  have hans := find_ptr_of_fixed w v (idOf f) hd hfixed
  rcases hgood f with h0 | ⟨hu, ha⟩ | ⟨he, hn, hu⟩
  · rw [lookup_null v f (idOf f) h0]
    refine ⟨hans, ?_, ?_⟩
    · simp only []
      rw [driver_setSlot, find_face, hd]
    · intro x
      simp only []
      by_cases hx : x = f
      · subst hx
        rw [slot_setSlot_same, hans]
        by_cases hr : (FT_FACE_FIND_SERVICE w (idOf x)).2 = NULL
        · rw [if_neg (not_not.mpr hr)]
          exact Or.inr (Or.inl ⟨rfl, hr⟩)
        · rw [if_pos hr]
          exact Or.inr (Or.inr ⟨rfl, hr, hm⟩)
      · rw [slot_setSlot_other _ _ _ _ hx, find_slot]
        exact hgood x
  · rw [lookup_unavailable v f (idOf f) hu]
    exact ⟨ha.symm, hd, hgood⟩
  · rw [lookup_present v f (idOf f) hn hu]
    exact ⟨he, hd, hgood⟩

theorem transparent_steps (w : World) (idOf : CacheField → String)
    (hfixed : ∀ g, w.face.driver.clazz.get_interface = some g →
      ∀ h1 h2 i, g h1 w.face.driver.handle i = g h2 w.face.driver.handle i) :
    ∀ (fields : List CacheField) (v : World), v.face.driver = w.face.driver →
      (∀ x, SlotAgrees (FT_FACE_FIND_SERVICE w (idOf x)).2 (v.slot x)) →
      (∀ f ∈ fields, (FT_FACE_FIND_SERVICE w (idOf f)).2 ≠ FT_SERVICE_UNAVAILABLE) →
      ∀ st ∈ steps v (fields.map (fun f => Op.lookup f (idOf f))),
        ∃ f ∈ fields, st.op = Op.lookup f (idOf f) ∧
          st.ptr = (FT_FACE_FIND_SERVICE st.before (idOf f)).2 ∧
          st.ptr = (FT_FACE_FIND_SERVICE w (idOf f)).2 := by
  intro fields
  induction fields with
  | nil => intro v _ _ _ st hst; simp [steps] at hst
  | cons f fields ih =>
    intro v hd hgood hm st hst
    obtain ⟨hp, hd1, hgood1⟩ :=
      transparent_step w v idOf f hd hfixed hgood (hm f (List.mem_cons_self _ _))
    simp only [List.map_cons, steps, List.mem_cons] at hst
    rcases hst with rfl | hst
    · refine ⟨f, List.mem_cons_self _ _, rfl, ?_, hp⟩
      show (FT_FACE_LOOKUP_SERVICE v f (idOf f)).2 = (FT_FACE_FIND_SERVICE v (idOf f)).2
      rw [hp, find_ptr_of_fixed w v (idOf f) hd hfixed]
    · obtain ⟨f1, hf1, h1⟩ :=
        ih (FT_FACE_LOOKUP_SERVICE v f (idOf f)).1 hd1 hgood1
          (fun x hx => hm x (List.mem_cons_of_mem _ hx)) st hst
      exact ⟨f1, List.mem_cons_of_mem _ hf1, h1⟩

/-- Claim C11 as stated fails: `magicModule` answers every id, on every call, with the
fixed pointer `(void*)-2`.  On a fresh face bound to it (all three slots NULL), after one
cached lookup of `postscript_name` the second cached lookup of the same slot with the same
id delivers NULL, while the uncached lookup for that id delivers `(void*)-2`. -/
theorem cache_transparency_counterexample :
    ((freshWorld magicModule).slot .postscript_name = NULL ∧
      (freshWorld magicModule).slot .multi_masters = NULL ∧
      (freshWorld magicModule).slot .glyph_dict = NULL) ∧
    magicModule.clazz.get_interface = some (fun _ _ _ => FT_SERVICE_UNAVAILABLE) ∧
    (FT_FACE_LOOKUP_SERVICE
      (runOps (freshWorld magicModule) [.lookup .postscript_name "postscript-name"])
      .postscript_name "postscript-name").2 = NULL ∧
    (FT_FACE_FIND_SERVICE
      (runOps (freshWorld magicModule) [.lookup .postscript_name "postscript-name"])
      "postscript-name").2 = FT_SERVICE_UNAVAILABLE ∧
    (FT_FACE_LOOKUP_SERVICE
      (runOps (freshWorld magicModule) [.lookup .postscript_name "postscript-name"])
      .postscript_name "postscript-name").2 ≠
    (FT_FACE_FIND_SERVICE
      (runOps (freshWorld magicModule) [.lookup .postscript_name "postscript-name"])
      "postscript-name").2 :=
  ⟨by decide, rfl, by decide, by decide, by decide⟩

/-- Claim C11, amended (cache transparency).  The three cache slots all start NULL; the
answers of the module's `get_interface` are fixed (they do not depend on the calls made
before); each slot `f` is always looked up with the same id `idOf f`; and the uncached
answer for the id of every slot that is looked up is not `FT_SERVICE_UNAVAILABLE`.  Then
in every finite sequence of cached lookups, each lookup is on some slot `f` of the
sequence and delivers the pointer that `FT_FACE_FIND_SERVICE` delivers for `idOf f`, both
in the state just before that lookup and in the initial state. -/
theorem cache_transparency (w : World) (idOf : CacheField → String)
    (fields : List CacheField)
    (hstart : ∀ f, w.slot f = NULL)
    (hfixed : ∀ g, w.face.driver.clazz.get_interface = some g →
      ∀ h1 h2 i, g h1 w.face.driver.handle i = g h2 w.face.driver.handle i)
    (hmagic : ∀ f ∈ fields, (FT_FACE_FIND_SERVICE w (idOf f)).2 ≠ FT_SERVICE_UNAVAILABLE) :
    ∀ st ∈ steps w (fields.map (fun f => Op.lookup f (idOf f))),
      ∃ f ∈ fields, st.op = Op.lookup f (idOf f) ∧
        st.ptr = (FT_FACE_FIND_SERVICE st.before (idOf f)).2 ∧
        st.ptr = (FT_FACE_FIND_SERVICE w (idOf f)).2 :=
  transparent_steps w idOf hfixed fields w rfl (fun x => Or.inl (hstart x)) hmagic

/-- Worked instance: five cached lookups over the three slots of a fresh face bound to
`tableModule`, each slot with its own id. -/
theorem cache_transparency_witness :
    (∀ f, (freshWorld tableModule).slot f = NULL) ∧
    (∀ f ∈ [CacheField.postscript_name, .multi_masters, .postscript_name, .glyph_dict,
        .multi_masters],
      (FT_FACE_FIND_SERVICE (freshWorld tableModule) (sampleId f)).2
        ≠ FT_SERVICE_UNAVAILABLE) ∧
    ∀ st ∈ steps (freshWorld tableModule)
        ([CacheField.postscript_name, .multi_masters, .postscript_name, .glyph_dict,
          .multi_masters].map (fun f => Op.lookup f (sampleId f))),
      ∃ f ∈ [CacheField.postscript_name, .multi_masters, .postscript_name, .glyph_dict,
          .multi_masters],
        st.op = Op.lookup f (sampleId f) ∧
        st.ptr = (FT_FACE_FIND_SERVICE st.before (sampleId f)).2 ∧
        st.ptr = (FT_FACE_FIND_SERVICE (freshWorld tableModule) (sampleId f)).2 :=
  ⟨fun f => by cases f <;> rfl,
    by decide,
    cache_transparency (freshWorld tableModule) sampleId
      [.postscript_name, .multi_masters, .postscript_name, .glyph_dict, .multi_masters]
      (fun f => by cases f <;> rfl)
      (fun g hg h1 h2 i => by cases Option.some.inj hg; rfl)
      (by decide)⟩

/-! ## Safety and frame of the cached lookup -/

/-- Claim C12 (the magic number never escapes).  For every face state, whatever the cache
slots hold, and every module whose `get_interface` never returns
`FT_SERVICE_UNAVAILABLE`, the pointer delivered by the cached lookup is not
`FT_SERVICE_UNAVAILABLE`: it is NULL, or it is a non-NULL value that is either the value
cached in the slot (the slot then not holding the magic number) or, the slot being NULL,
the answer of the module's `get_interface( module, id )`. -/
theorem magic_never_escapes (w : World) (field : CacheField) (id : String)
    (hm : ∀ g, w.face.driver.clazz.get_interface = some g →
      ∀ h m i, g h m i ≠ FT_SERVICE_UNAVAILABLE) :
    (FT_FACE_LOOKUP_SERVICE w field id).2 ≠ FT_SERVICE_UNAVAILABLE ∧
    ((FT_FACE_LOOKUP_SERVICE w field id).2 = NULL ∨
      ((FT_FACE_LOOKUP_SERVICE w field id).2 ≠ NULL ∧
        (((FT_FACE_LOOKUP_SERVICE w field id).2 = w.slot field ∧
            w.slot field ≠ FT_SERVICE_UNAVAILABLE) ∨
          (w.slot field = NULL ∧
            ∃ g, w.face.driver.clazz.get_interface = some g ∧
              (FT_FACE_LOOKUP_SERVICE w field id).2 =
                g w.calls w.face.driver.handle id)))) := by
  by_cases hu : w.slot field = FT_SERVICE_UNAVAILABLE
  · rw [lookup_unavailable w field id hu]
    exact ⟨fun e => unavailable_ne_null e.symm, Or.inl rfl⟩
  · by_cases hn : w.slot field = NULL
    · rw [lookup_null w field id hn]
      cases hg : w.face.driver.clazz.get_interface with
      | none =>
        rw [find_none w id hg]
        exact ⟨fun e => unavailable_ne_null e.symm, Or.inl rfl⟩
      | some g =>
        rw [find_some w id g hg]
        refine ⟨hm g hg _ _ _, ?_⟩
        by_cases hr : g w.calls w.face.driver.handle id = NULL
        · exact Or.inl hr
        · exact Or.inr ⟨hr, Or.inr ⟨hn, g, rfl, rfl⟩⟩
    · rw [lookup_present w field id hn hu]
      exact ⟨hu, Or.inr ⟨hn, Or.inl ⟨rfl, hu⟩⟩⟩

/-- Worked instance: `lateModule` answers only NULL or 4096; the cached lookup of
`postscript_name` on `negativeWorld`, which is bound to it, does not deliver the magic
number. -/
theorem magic_never_escapes_witness :
    (∀ g, negativeWorld.face.driver.clazz.get_interface = some g →
      ∀ h m i, g h m i ≠ FT_SERVICE_UNAVAILABLE) ∧
    (FT_FACE_LOOKUP_SERVICE negativeWorld .postscript_name "postscript-name").2
      ≠ FT_SERVICE_UNAVAILABLE :=
  ⟨fun g hg h m i => by
      cases Option.some.inj hg
      rw [unavailable_val]
      show (if h = [] then NULL else 4096) ≠ 18446744073709551614
      split <;> decide,
    (magic_never_escapes negativeWorld .postscript_name "postscript-name"
      (fun g hg h m i => by
        cases Option.some.inj hg
        rw [unavailable_val]
        show (if h = [] then NULL else 4096) ≠ 18446744073709551614
        split <;> decide)).1⟩

/-- Claim C13 (frame condition).  For every face state and every slot `field`, the cached
lookup on `field` leaves every other cache slot and the driver module the face is bound
to unchanged, whichever branch it takes (hit, negative hit or populate). -/
theorem lookup_frame (w : World) (field : CacheField) (id : String) :
    (∀ other, other ≠ field →
      (FT_FACE_LOOKUP_SERVICE w field id).1.slot other = w.slot other) ∧
    (FT_FACE_LOOKUP_SERVICE w field id).1.face.driver = w.face.driver :=
  ⟨fun other h => lookup_slot_other w field other id h,
    run_driver w (Op.lookup field id)⟩

/-- Worked instance: the populate step on the slot `multi_masters` of `hitWorld` leaves
`postscript_name` at 4096 and `glyph_dict` at NULL. -/
theorem lookup_frame_witness :
    CacheField.postscript_name ≠ CacheField.multi_masters ∧
    CacheField.glyph_dict ≠ CacheField.multi_masters ∧
    (FT_FACE_LOOKUP_SERVICE hitWorld .multi_masters "multi-masters").1.slot .multi_masters
      = FT_SERVICE_UNAVAILABLE ∧
    (FT_FACE_LOOKUP_SERVICE hitWorld .multi_masters "multi-masters").1.slot .postscript_name
      = hitWorld.slot .postscript_name ∧
    (FT_FACE_LOOKUP_SERVICE hitWorld .multi_masters "multi-masters").1.slot .glyph_dict
      = hitWorld.slot .glyph_dict :=
  ⟨by decide, by decide, by decide,
    (lookup_frame hitWorld .multi_masters "multi-masters").1 .postscript_name (by decide),
    (lookup_frame hitWorld .multi_masters "multi-masters").1 .glyph_dict (by decide)⟩

end FTServ
